import Mathlib

/-!
Verification of the coder-view repository: a code-quality evaluation web app.
The repository snapshot contains the React/TypeScript frontend
(web/src/lib/supabase.ts, web/src/components/Dashboard.tsx, App.tsx) and the
Supabase SQL schema; the Python evaluation engine (server/) referenced by the
README is not in the snapshot, so the engine is modelled from the spec where
needed (each such definition is marked in its doc comment).

Conventions of the embedding:
- text content is a `List Char`; raw uploaded bytes are a `List Nat`;
- JS `number` fields holding counts are `Nat`, general numbers are `Int`,
  and fractional results (densities, ratios, averages) are `ℚ`;
- a TS field of type `T | null` or `T | undefined` is an `Option T`;
- a TS `Record<string, unknown>` is a `List (String × String)` key-value list.
-/

/- ===================== character-level text utilities ===================== -/

/-- Whitespace characters for line trimming and fragment normalization. -/
def isWSChar (c : Char) : Bool := c = ' ' || c = '\t' || c = '\r'

/-- ASCII lowercase of a single character. -/
def lowerChar (c : Char) : Char :=
  if 'A' ≤ c ∧ c ≤ 'Z' then Char.ofNat (c.toNat + 32) else c

def splitLinesAux : List Char → List Char → List (List Char)
  | [], acc => [acc.reverse]
  | c :: rest, acc =>
    if c = '\n' then acc.reverse :: splitLinesAux rest []
    else splitLinesAux rest (c :: acc)

/-- Split text into its lines at newline characters. -/
def splitLines (s : List Char) : List (List Char) := splitLinesAux s []

/-- Remove leading and trailing whitespace from a line. -/
def trimLine (l : List Char) : List Char :=
  ((l.dropWhile isWSChar).reverse.dropWhile isWSChar).reverse

/-- Drop a `#` or `//` line comment and everything after it. -/
def stripLineComment : List Char → List Char
  | [] => []
  | '#' :: _ => []
  | '/' :: '/' :: _ => []
  | c :: rest => c :: stripLineComment rest

/-- Does `pat` occur as a contiguous substring of the character list. -/
def hasSubstr (pat : List Char) : List Char → Bool
  | [] => pat.isEmpty
  | c :: rest => pat.isPrefixOf (c :: rest) || hasSubstr pat rest

/- ============== data model from web/src/lib/supabase.ts ============== -/

/-- The `ReportSummary` interface of supabase.ts: every field is optional. -/
structure ReportSummary where
  overview : Option String
  risks : Option (List String)
  recommendations : Option (List String)
  code_patterns : Option String
  architecture_notes : Option String
  priority_fixes : Option (List String)
  text : Option String
  error : Option String
deriving DecidableEq, Inhabited

/-- Field names of the `ReportSummary` interface, in declaration order. -/
def summaryFieldKeys : List String :=
  ["overview", "risks", "recommendations", "code_patterns",
   "architecture_notes", "priority_fixes", "text", "error"]

/-- The `ReportMetrics` interface of supabase.ts: four per-dimension records
(`Record<string, unknown>` each) plus `file_count`. -/
structure ReportMetrics where
  readability : List (String × String)
  reusability : List (String × String)
  robustness : List (String × String)
  performance : List (String × String)
  file_count : Int
deriving DecidableEq, Inhabited

/-- Field names of the `ReportMetrics` interface, in declaration order. -/
def reportMetricsFieldKeys : List String :=
  ["readability", "reusability", "robustness", "performance", "file_count"]

/-- The `Report` interface of supabase.ts: the stored report row. -/
structure Report where
  id : Int
  run_id : String
  project_name : String
  user_id : String
  metrics : ReportMetrics
  summary : Option ReportSummary
  llm_request_time : Option String
  llm_response_time : Option String
  llm_tokens_used : Option Int
  llm_model_used : Option String
  created_at : String
deriving DecidableEq, Inhabited

/-- Field names of the `Report` interface, in declaration order. -/
def reportFieldKeys : List String :=
  ["id", "run_id", "project_name", "user_id", "metrics", "summary",
   "llm_request_time", "llm_response_time", "llm_tokens_used",
   "llm_model_used", "created_at"]

/-- Following the spec's words (§3 Report, for comparison with the source):
`{run_id: string, project_name: string, metrics: {readability, reusability,
robustness, performance}, file_count: int}` — the spec places `file_count`
at the top level of the Report, next to `metrics`. -/
def specReportKeys : List String :=
  ["run_id", "project_name", "metrics", "file_count"]

/-- Following the spec's words (§3 Report): the spec's `metrics` object holds
only the four dimension records. -/
def specMetricsKeys : List String :=
  ["readability", "reusability", "robustness", "performance"]

/- ================ supabase client module (supabase.ts, lines 1-10) ======== -/

/-- The client value built by `createClient(supabaseUrl, supabaseAnonKey)`. -/
structure SupabaseClient where
  url : String
  anonKey : String
deriving DecidableEq

def createClient (url anonKey : String) : SupabaseClient :=
  { url := url, anonKey := anonKey }

/-- JS falsiness of an `import.meta.env` string: the variable is unset
(`undefined`) or set to the empty string. -/
def envFalsy : Option String → Bool
  | none => true
  | some s => s = ""

/-- Module initialization of supabase.ts: `if (!supabaseUrl || !supabaseAnonKey)
throw new Error(...)`, else `export const supabase = createClient(...)`. -/
def initSupabase (supabaseUrl supabaseAnonKey : Option String) :
    Except String SupabaseClient :=
  if envFalsy supabaseUrl || envFalsy supabaseAnonKey then
    Except.error "Missing Supabase config: set VITE_SUPABASE_URL and VITE_SUPABASE_ANON_KEY"
  else
    Except.ok (createClient (supabaseUrl.getD "") (supabaseAnonKey.getD ""))

/- ================== Dashboard component statistics ======================= -/

/-- JS `x || 0` applied to a number: 0 stays 0 (and NaN would become 0),
any other number is returned unchanged. -/
def jsOrZero (n : Int) : Int := if n = 0 then 0 else n

/-- Dashboard.tsx: `const totalEvaluations = reports.length`. -/
def totalEvaluations (reports : List Report) : Nat := reports.length

/-- Dashboard.tsx: `reports.reduce((sum, r) => sum + (r.metrics.file_count || 0), 0)`. -/
def totalFiles (reports : List Report) : Int :=
  reports.foldl (fun sum r => sum + jsOrZero r.metrics.file_count) 0

/-- Dashboard.tsx: `const avgFilesPerProject = totalFiles / totalEvaluations || 0`.
When the report list is empty this is `0 / 0`, which is `NaN` in JS, and
`NaN || 0` yields 0; when the list is nonempty the quotient is finite, and
`q || 0` yields `q` (a zero quotient is replaced by the equal value 0). -/
def avgFilesPerProject (reports : List Report) : ℚ :=
  if totalEvaluations reports = 0 then 0
  else (totalFiles reports : ℚ) / (totalEvaluations reports : ℚ)

/- ========== evaluation engine data model (spec §3; engine absent) ========= -/

/-- Modelled from the spec: §3 LanguageTag, the enumerated language variant
(the server/ engine is not in the repository snapshot). -/
inductive LanguageTag
  | python
  | javascript_typescript
  | other
deriving DecidableEq, Inhabited

/-- Modelled from the spec: §3 SourceFile, one retained text-decodable file. -/
structure SourceFile where
  path : String
  language : LanguageTag
  content : List Char
  line_count : Nat
deriving DecidableEq, Inhabited

/-- Modelled from the spec: §4.1, one uploaded entry before collection,
a relative path with raw byte content. -/
structure RawEntry where
  path : String
  bytes : List Nat
deriving DecidableEq, Inhabited

/-- The nested `python` object of the `ReadabilityMetrics` type (web App.tsx). -/
structure ReadabilityPython where
  docstring_count : Nat
  function_count : Nat
  comment_density : ℚ
deriving DecidableEq, Inhabited

/-- The nested `javascript_typescript` object of `ReadabilityMetrics` (web App.tsx). -/
structure ReadabilityJs where
  jsdoc_blocks : Nat
  comment_density : ℚ
deriving DecidableEq, Inhabited

/-- The `ReadabilityMetrics` type of web App.tsx. -/
structure ReadabilityMetrics where
  has_readme : Bool
  python : ReadabilityPython
  javascript_typescript : ReadabilityJs
deriving DecidableEq, Inhabited

/-- The `ReusabilityMetrics` type of web App.tsx. -/
structure ReusabilityMetrics where
  duplicate_group_count : Nat
  duplicate_groups : List (List String)
  recommendation : String
deriving DecidableEq, Inhabited

/-- The nested `python` object of the `RobustnessMetrics` type (web App.tsx). -/
structure RobustnessPython where
  try_except_count : Nat
  function_count : Nat
  typed_function_ratio : ℚ
deriving DecidableEq, Inhabited

/-- The `RobustnessMetrics` type of web App.tsx. -/
structure RobustnessMetrics where
  has_tests : Bool
  python : RobustnessPython
deriving DecidableEq, Inhabited

/-- The `PerformanceMetrics` type of web App.tsx. -/
structure PerformanceMetrics where
  sql_injection_risk_files : List String
  risky_calls_files : List String
  notes : String
deriving DecidableEq, Inhabited

/-- The `Metrics` type of web App.tsx: the four dimension records plus
`file_count`, nested inside the report. -/
structure Metrics where
  readability : ReadabilityMetrics
  reusability : ReusabilityMetrics
  robustness : RobustnessMetrics
  performance : PerformanceMetrics
  file_count : Nat
deriving DecidableEq, Inhabited

/-- Field names of the `Metrics` type of web App.tsx, in declaration order. -/
def metricsFieldKeys : List String :=
  ["readability", "reusability", "robustness", "performance", "file_count"]

/-- The `Report` type of web App.tsx (the engine's response body), named
`EngineReport` here because the stored row type already uses `Report`. -/
structure EngineReport where
  run_id : String
  project_name : String
  metrics : Metrics
  summary : Option ReportSummary
deriving DecidableEq, Inhabited

/- ======== language classifier and file collector (spec §4.1-§4.2) ======== -/

/-- Does the path end with the given extension suffix. -/
def endsWithStr (suffixStr s : String) : Bool :=
  suffixStr.data.isSuffixOf s.data

/-- Modelled from the spec: §4.2 the fixed extension table of `classify`
(`.py` → python; `.js/.jsx/.ts/.tsx` → javascript_typescript; else other). -/
def classify (path : String) : LanguageTag :=
  if endsWithStr ".py" path then LanguageTag.python
  else if endsWithStr ".js" path || endsWithStr ".jsx" path ||
      endsWithStr ".ts" path || endsWithStr ".tsx" path then
    LanguageTag.javascript_typescript
  else LanguageTag.other

/-- Modelled from the spec: §4.1 the well-known noise directories skipped by
path-prefix match (dependency caches, build output, version-control metadata). -/
def noiseDirPrefixes : List String :=
  ["node_modules/", ".git/", "dist/", "build/", "__pycache__/", ".venv/", "venv/"]

/-- Modelled from the spec: §4.1, a path is noise when a noise directory name
is a prefix of the path or of one of its subdirectory segments. -/
def isNoisePath (path : String) : Bool :=
  noiseDirPrefixes.any fun p =>
    p.data.isPrefixOf path.data || hasSubstr ('/' :: p.data) path.data

/-- Modelled from the spec: §4.1 binary detection by null-byte /
invalid-encoding heuristic; content is decoded as ASCII text, and a null
byte or a byte outside the ASCII range marks the entry as binary. -/
def isBinaryContent (bytes : List Nat) : Bool :=
  bytes.any fun b => b = 0 || 127 < b

/-- Decode retained ASCII bytes into text. -/
def decodeText (bytes : List Nat) : List Char := bytes.map Char.ofNat

/-- Modelled from the spec: §4.1, an uploaded entry is retained when it is
neither in a noise directory nor binary. -/
def retainedEntry (e : RawEntry) : Bool :=
  !(isNoisePath e.path) && !(isBinaryContent e.bytes)

/-- Modelled from the spec: §3/§4.1, build the immutable SourceFile from a
retained entry: classified language, decoded content and its line count. -/
def toSourceFile (e : RawEntry) : SourceFile :=
  { path := e.path
    language := classify e.path
    content := decodeText e.bytes
    line_count := (splitLines (decodeText e.bytes)).length }

/-- Modelled from the spec: §4.1 File Collector, the ordered sequence of
retained, text-decodable SourceFiles. -/
def collect (entries : List RawEntry) : List SourceFile :=
  (entries.filter retainedEntry).map toSourceFile

/- ================= per-line pattern recognizers (spec §4.3) ================ -/

/-- Modelled from the spec: §4.3, a python function-definition header. -/
def isDefLine (l : List Char) : Bool :=
  "def ".data.isPrefixOf (trimLine l)

/-- Modelled from the spec: §4.3, a python comment line. -/
def isPyCommentLine (l : List Char) : Bool :=
  "#".data.isPrefixOf (trimLine l)

/-- Modelled from the spec: §4.3, a docstring-delimited block opener. -/
def isDocstringStart (l : List Char) : Bool :=
  "\"\"\"".data.isPrefixOf (trimLine l) || "'''".data.isPrefixOf (trimLine l)

/-- Modelled from the spec: §4.3, a javascript/typescript comment line. -/
def isJsCommentLine (l : List Char) : Bool :=
  "//".data.isPrefixOf (trimLine l) || "/*".data.isPrefixOf (trimLine l) ||
    "*".data.isPrefixOf (trimLine l)

/-- Modelled from the spec: §4.3, a `/** ... */` style block opener. -/
def isJsdocStart (l : List Char) : Bool :=
  "/**".data.isPrefixOf (trimLine l)

/-- Modelled from the spec: §4.3, an exception-handling block opener. -/
def isTryLine (l : List Char) : Bool :=
  "try:".data.isPrefixOf (trimLine l)

/-- Modelled from the spec: §4.3, a recognizable type annotated function
header: a `->` return annotation, or a `:` inside the parameter parentheses. -/
def hasTypeHint (l : List Char) : Bool :=
  hasSubstr "->".data l ||
    (((l.dropWhile (· ≠ '(')).drop 1).takeWhile (· ≠ ')')).contains ':'

/-- Modelled from the spec: §4.3, a case-insensitive README variant at the
project root (a top-level path whose name starts with "readme"). -/
def isReadmePath (path : String) : Bool :=
  path.data.all (· ≠ '/') && "readme".data.isPrefixOf (path.data.map lowerChar)

/-- Modelled from the spec: §4.3, a test-directory or test-file naming
convention match (case-insensitive "test" anywhere in the path). -/
def isTestPath (path : String) : Bool :=
  hasSubstr "test".data (path.data.map lowerChar)

/-- All lines of the files classified with the given language tag. -/
def linesOfLang (tag : LanguageTag) (files : List SourceFile) : List (List Char) :=
  (files.filter fun f => decide (f.language = tag)).flatMap fun f =>
    splitLines f.content

/-- All lines of the python files. -/
def pyLines (files : List SourceFile) : List (List Char) :=
  linesOfLang LanguageTag.python files

/-- All lines of the javascript/typescript files. -/
def jsLines (files : List SourceFile) : List (List Char) :=
  linesOfLang LanguageTag.javascript_typescript files

/-- The python function-definition header lines. -/
def pyDefLines (files : List SourceFile) : List (List Char) :=
  (pyLines files).filter isDefLine

/-- Modelled from the spec: §4.3, a ratio defined as 0 when its denominator
is 0 rather than failing on divide-by-zero. -/
def ratioOrZero (num den : Nat) : ℚ :=
  if den = 0 then 0 else (num : ℚ) / (den : ℚ)

/-- Modelled from the spec: §4.3, docstring blocks immediately following a
function-definition header, counted within one file's line list. -/
def countDocstrings : List (List Char) → Nat
  | [] => 0
  | [_] => 0
  | a :: b :: rest =>
    (if isDefLine a && isDocstringStart b then 1 else 0) + countDocstrings (b :: rest)

/- ==================== duplicate detector (spec §4.4) ===================== -/

/-- Modelled from the spec: §4.4, a candidate fragment boundary, a
function/class-level block header recognized by the lightweight pattern
recognizer. -/
def isBlockStart (l : List Char) : Bool :=
  "def ".data.isPrefixOf (trimLine l) || "class ".data.isPrefixOf (trimLine l) ||
    "function ".data.isPrefixOf (trimLine l)

def chopBlocksAux : List (List Char) → List (List Char) → List (List (List Char))
  | [], cur => [cur.reverse]
  | l :: rest, cur =>
    if isBlockStart l then cur.reverse :: chopBlocksAux rest [l]
    else chopBlocksAux rest (l :: cur)

/-- Modelled from the spec: §4.4, the candidate fragments of one file: the
blocks running from each block header to the next, falling back to the whole
file content when no block boundaries are found.  The head of `chopBlocksAux`
is the preamble before the first header and is not a candidate fragment. -/
def fragmentsOf (f : SourceFile) : List (List (List Char)) :=
  let ls := splitLines f.content
  let blocks := (chopBlocksAux ls []).tail
  if blocks.isEmpty then [ls] else blocks

/-- Modelled from the spec: §4.4, normalize a fragment by stripping comments,
whitespace variance and identifier case; the result is the stable fingerprint
key of the fragment (content used directly as the hash, so collisions between
different normalized contents are impossible). -/
def normalizeFragment (block : List (List Char)) : List Char :=
  (block.map fun l =>
    ((stripLineComment l).filter fun c => !(isWSChar c)).map lowerChar).flatten

/-- The normalized fingerprint keys of a file's candidate fragments. -/
def fragmentKeys (f : SourceFile) : List (List Char) :=
  (fragmentsOf f).map normalizeFragment

/-- Lexicographic order on paths, compared character by character. -/
def pathLE (a b : String) : Prop := a.data ≤ b.data

instance : DecidableRel pathLE := fun a b =>
  inferInstanceAs (Decidable (a.data ≤ b.data))

/-- The files owning a fragment with the given fingerprint key. -/
def filesWithKey (files : List SourceFile) (k : List Char) : List SourceFile :=
  files.filter fun f => decide (k ∈ fragmentKeys f)

/-- Modelled from the spec: §4.4/§4.3, the bucket of one fingerprint key as an
ordered group: the distinct paths of the files sharing the key, sorted for
determinism. -/
def pathsForKey (files : List SourceFile) (k : List Char) : List String :=
  List.insertionSort pathLE ((filesWithKey files k).map (fun f => f.path)).dedup

/-- Every distinct fingerprint key appearing in the file set. -/
def allKeys (files : List SourceFile) : List (List Char) :=
  (files.flatMap fragmentKeys).dedup

/-- Modelled from the spec: §4.4 group emission order, descending member
count with ties broken by the lexicographic order of the first path. -/
def GroupLE (a b : List String) : Prop :=
  b.length < a.length ∨ (a.length = b.length ∧ pathLE (a.headD "") (b.headD ""))

instance : DecidableRel GroupLE := fun a b =>
  inferInstanceAs
    (Decidable (b.length < a.length ∨ (a.length = b.length ∧ pathLE (a.headD "") (b.headD ""))))

instance : IsTotal (List String) GroupLE where
  total a b := by
    rcases Nat.lt_trichotomy a.length b.length with h | h | h
    · exact Or.inr (Or.inl h)
    · rcases le_total (a.headD "").data (b.headD "").data with h2 | h2
      · exact Or.inl (Or.inr ⟨h, h2⟩)
      · exact Or.inr (Or.inr ⟨h.symm, h2⟩)
    · exact Or.inl (Or.inl h)

instance : IsTrans (List String) GroupLE where
  trans a b c hab hbc := by
    rcases hab with h | ⟨h1, h2⟩ <;> rcases hbc with h' | ⟨h1', h2'⟩
    · exact Or.inl (by omega)
    · exact Or.inl (by omega)
    · exact Or.inl (by omega)
    · exact Or.inr ⟨by omega, le_trans h2 h2'⟩

/-- Modelled from the spec: §4.4 Duplicate Detector, the reportable
DuplicateGroups: fingerprint buckets spanning two or more distinct files,
emitted sorted by descending member count, ties broken by the lexicographic
order of the first path. -/
def duplicateGroups (files : List SourceFile) : List (List String) :=
  List.insertionSort GroupLE
    (((allKeys files).map (pathsForKey files)).filter fun g => decide (2 ≤ g.length))

/- ==================== metric extractors (spec §4.3) ====================== -/

/-- Modelled from the spec: §4.3 Readability extractor. -/
def readabilityMetrics (files : List SourceFile) : ReadabilityMetrics :=
  { has_readme := files.any fun f => isReadmePath f.path
    python :=
      { docstring_count :=
          ((files.filter fun f => decide (f.language = LanguageTag.python)).map
            fun f => countDocstrings (splitLines f.content)).sum
        function_count := (pyDefLines files).length
        comment_density :=
          ratioOrZero ((pyLines files).countP isPyCommentLine) (pyLines files).length }
    javascript_typescript :=
      { jsdoc_blocks := (jsLines files).countP isJsdocStart
        comment_density :=
          ratioOrZero ((jsLines files).countP isJsCommentLine) (jsLines files).length } }

/-- Modelled from the spec: §4.3 Reusability extractor, delegating to the
Duplicate Detector and choosing the recommendation from the fixed rule table
keyed on the group count. -/
def reusabilityMetrics (files : List SourceFile) : ReusabilityMetrics :=
  let groups := duplicateGroups files
  { duplicate_group_count := groups.length
    duplicate_groups := groups
    recommendation :=
      if groups.length = 0 then "no significant duplication detected"
      else "significant duplication detected; the largest duplicate group spans "
        ++ toString ((groups.map List.length).foldr max 0) ++ " files" }

/-- Modelled from the spec: §4.3 Robustness extractor. -/
def robustnessMetrics (files : List SourceFile) : RobustnessMetrics :=
  { has_tests := files.any fun f => isTestPath f.path
    python :=
      { try_except_count := (pyLines files).countP isTryLine
        function_count := (pyDefLines files).length
        typed_function_ratio :=
          ratioOrZero ((pyDefLines files).countP hasTypeHint) (pyDefLines files).length } }

/-- Modelled from the spec: §4.3, a string-concatenation or interpolation
pattern feeding a recognized SQL-execution call. -/
def sqlRiskFile (f : SourceFile) : Bool :=
  hasSubstr "execute(".data f.content &&
    (hasSubstr "+".data f.content || hasSubstr "%".data f.content ||
      hasSubstr "format(".data f.content)

/-- Modelled from the spec: §4.3, known-risky call patterns: dynamic code
execution, unsanitized shell invocation, insecure deserialization. -/
def riskyCallFile (f : SourceFile) : Bool :=
  hasSubstr "eval(".data f.content || hasSubstr "exec(".data f.content ||
    hasSubstr "os.system(".data f.content || hasSubstr "subprocess".data f.content ||
    hasSubstr "pickle.loads".data f.content

/-- Modelled from the spec: §4.3 Performance extractor; both path lists are
deduplicated and sorted. -/
def performanceMetrics (files : List SourceFile) : PerformanceMetrics :=
  let sqlFiles :=
    List.insertionSort pathLE ((files.filter sqlRiskFile).map (fun f => f.path)).dedup
  let riskyFiles :=
    List.insertionSort pathLE ((files.filter riskyCallFile).map (fun f => f.path)).dedup
  { sql_injection_risk_files := sqlFiles
    risky_calls_files := riskyFiles
    notes :=
      if sqlFiles.isEmpty && riskyFiles.isEmpty then
        "no obvious injection or risky call patterns detected"
      else "review the flagged files for injection and risky call patterns" }

/- ============== pipeline: collection, aggregation (spec §4.5) ============= -/

/-- Modelled from the spec: §7 error taxonomy; only `CollectionError` is
reachable in this core (no usable files after collection). -/
inductive EvalError
  | collectionError
deriving DecidableEq, Inhabited

/-- Modelled from the spec: §2/§4.5, the full pipeline: collect, classify,
extract each dimension, aggregate into the immutable report.  Fails with
`CollectionError` when zero files are retained; the `summary` field is left
for the external summarization collaborator and never produced here. -/
def evaluate (runId projectName : String) (entries : List RawEntry) :
    Except EvalError EngineReport :=
  if (collect entries).isEmpty then Except.error EvalError.collectionError
  else
    Except.ok
      { run_id := runId
        project_name := projectName
        metrics :=
          { readability := readabilityMetrics (collect entries)
            reusability := reusabilityMetrics (collect entries)
            robustness := robustnessMetrics (collect entries)
            performance := performanceMetrics (collect entries)
            file_count := (collect entries).length }
        summary := none }

/- =================== concrete inputs used by the theorems ================= -/

/-- A small upload: one python file and a README, both plain ASCII. -/
def demoEntries : List RawEntry :=
  [{ path := "main.py", bytes := "def main():\n    return 0\n".data.map Char.toNat },
   { path := "README.md", bytes := "# demo project\n".data.map Char.toNat }]

/-- The report produced by the pipeline on `demoEntries` under run id run-1. -/
def demoEvalReport : EngineReport :=
  (evaluate "run-1" "demo" demoEntries).toOption.getD default

/-- The report produced by the pipeline on `demoEntries` under run id run-2. -/
def demoEvalReport2 : EngineReport :=
  (evaluate "run-2" "demo" demoEntries).toOption.getD default

/-- Scenario input of spec §8: `a.py` holds a 10-line function `shared` and
otherwise unique content. -/
def sharedTextA : String :=
"def shared(x):\n    y = x + 1\n    y = y + 2\n    y = y + 3\n    y = y + 4\n    y = y + 5\n    y = y + 6\n    y = y + 7\n    y = y + 8\n    return y\ndef only_a():\n    return 1\n"

/-- Scenario input of spec §8: `b.py` holds the same 10-line function body as
`a.py` differing only in whitespace, and otherwise unique content. -/
def sharedTextB : String :=
"def shared( x ):\n  y = x  + 1\n  y = y + 2\n  y = y + 3\n  y = y + 4\n  y = y + 5\n  y = y + 6\n  y = y + 7\n  y = y + 8\n  return y\ndef only_b():\n    return 2\n"

def dupFileA : SourceFile :=
  { path := "a.py", language := LanguageTag.python,
    content := sharedTextA.data, line_count := (splitLines sharedTextA.data).length }

def dupFileB : SourceFile :=
  { path := "b.py", language := LanguageTag.python,
    content := sharedTextB.data, line_count := (splitLines sharedTextB.data).length }

/-- A concrete stored report row used to instantiate the Dashboard statistics. -/
def demoRow : Report :=
  { id := 1, run_id := "run-1", project_name := "demo", user_id := "u-1"
    metrics :=
      { readability := [], reusability := [], robustness := [], performance := []
        file_count := 6 }
    summary := none
    llm_request_time := none, llm_response_time := none
    llm_tokens_used := none, llm_model_used := none
    created_at := "2025-01-01T00:00:00Z" }

/-- A third file whose content matches no fragment of the scenario files. -/
def uniqFile : SourceFile :=
  { path := "u.py", language := LanguageTag.python,
    content := "def only_u():\n    return 3\n".data,
    line_count := (splitLines "def only_u():\n    return 3\n".data).length }

/- ============================ helper lemmas ============================== -/

theorem ratioOrZero_nonneg (n d : Nat) : 0 ≤ ratioOrZero n d := by
  unfold ratioOrZero
  split
  · exact le_refl 0
  · positivity

theorem ratioOrZero_le_one {n d : Nat} (h : n ≤ d) : ratioOrZero n d ≤ 1 := by
  by_cases hd : d = 0
  · simp [ratioOrZero, hd]
  · unfold ratioOrZero
    rw [if_neg hd, div_le_one (by exact_mod_cast Nat.pos_of_ne_zero hd)]
    exact_mod_cast h

theorem robustness_ratio_def (files : List SourceFile) :
    (robustnessMetrics files).python.typed_function_ratio =
      ratioOrZero ((pyDefLines files).countP hasTypeHint) (pyDefLines files).length := rfl

theorem robustness_count_def (files : List SourceFile) :
    (robustnessMetrics files).python.function_count = (pyDefLines files).length := rfl

theorem readability_py_density_def (files : List SourceFile) :
    (readabilityMetrics files).python.comment_density =
      ratioOrZero ((pyLines files).countP isPyCommentLine) (pyLines files).length := rfl

theorem readability_js_density_def (files : List SourceFile) :
    (readabilityMetrics files).javascript_typescript.comment_density =
      ratioOrZero ((jsLines files).countP isJsCommentLine) (jsLines files).length := rfl

theorem jsOrZero_eq_self (n : Int) : jsOrZero n = n := by
  unfold jsOrZero
  split <;> omega

theorem foldl_add_eq_sum (f : Report → Int) (l : List Report) (a : Int) :
    l.foldl (fun s r => s + f r) a = a + (l.map f).sum := by
  induction l generalizing a with
  | nil => simp
  | cons x xs ih =>
    simp only [List.foldl_cons, List.map_cons, List.sum_cons, ih]
    ring

theorem totalFiles_eq_sum (reports : List Report) :
    totalFiles reports = (reports.map fun r => r.metrics.file_count).sum := by
  unfold totalFiles
  rw [foldl_add_eq_sum (fun r => jsOrZero r.metrics.file_count) reports 0]
  simp [jsOrZero_eq_self]

theorem envFalsy_true_iff (o : Option String) :
    envFalsy o = true ↔ (o = none ∨ o = some "") := by
  cases o with
  | none => simp [envFalsy]
  | some s => simp [envFalsy]

theorem mem_pathsForKey {files : List SourceFile} {k : List Char} {p : String} :
    p ∈ pathsForKey files k ↔ ∃ f ∈ files, f.path = p ∧ k ∈ fragmentKeys f := by
  unfold pathsForKey filesWithKey
  rw [List.mem_insertionSort, List.mem_dedup, List.mem_map]
  constructor
  · rintro ⟨f, hf, rfl⟩
    rw [List.mem_filter] at hf
    exact ⟨f, hf.1, rfl, by simpa using hf.2⟩
  · rintro ⟨f, hf, hp, hk⟩
    exact ⟨f, List.mem_filter.mpr ⟨hf, by simpa using hk⟩, hp⟩

theorem nodup_pathsForKey (files : List SourceFile) (k : List Char) :
    (pathsForKey files k).Nodup := by
  unfold pathsForKey
  exact ((List.perm_insertionSort pathLE _).symm).nodup (List.nodup_dedup _)

theorem mem_duplicateGroups_elim {files : List SourceFile} {g : List String}
    (hg : g ∈ duplicateGroups files) :
    2 ≤ g.length ∧ ∃ k, g = pathsForKey files k := by
  unfold duplicateGroups at hg
  rw [List.mem_insertionSort, List.mem_filter] at hg
  obtain ⟨hmem, hlen⟩ := hg
  rw [List.mem_map] at hmem
  obtain ⟨k, _, rfl⟩ := hmem
  exact ⟨by simpa using hlen, k, rfl⟩

theorem exists_second_mem {l : List String} (hnd : l.Nodup) (hlen : 2 ≤ l.length)
    {a : String} (ha : a ∈ l) : ∃ b ∈ l, b ≠ a := by
  rcases l with _ | ⟨x, l2⟩
  · exact absurd hlen (by simp)
  rcases l2 with _ | ⟨y, rest⟩
  · exact absurd hlen (by simp)
  by_cases hxa : x = a
  · subst hxa
    refine ⟨y, by simp, fun hya => ?_⟩
    have hx : x ∉ y :: rest := (List.nodup_cons.mp hnd).1
    exact hx (by rw [← hya]; exact List.mem_cons_self y rest)
  · exact ⟨x, by simp, hxa⟩

/- ====================== theorems settling the claims ===================== -/

/-- C1: for every evaluation run the produced report's `file_count` equals the
number of retained, text-decodable files fed into the pipeline, independently
of the language mix and of how many files individual extractors skipped. -/
theorem file_count_matches_retained_files (runId projectName : String)
    (entries : List RawEntry) (r : EngineReport)
    (h : evaluate runId projectName entries = Except.ok r) :
    r.metrics.file_count = (collect entries).length := by
  unfold evaluate at h
  split at h
  · exact Except.noConfusion h
  · cases h
    rfl

/-- Witness for `file_count_matches_retained_files` on the demo upload. -/
theorem file_count_matches_retained_files_check :
    evaluate "run-1" "demo" demoEntries = Except.ok demoEvalReport ∧
    demoEvalReport.metrics.file_count = (collect demoEntries).length :=
  ⟨rfl, file_count_matches_retained_files "run-1" "demo" demoEntries demoEvalReport rfl⟩

/-- C2 counterexample: the claim places `file_count` at the top level of the
Report next to `metrics`, but in the source (supabase.ts `Report` and
`ReportMetrics`, web App.tsx `Metrics`) `file_count` is a field of the nested
metrics object and not a top-level Report field. -/
theorem file_count_top_level_refuted :
    "file_count" ∈ specReportKeys ∧ "file_count" ∉ reportFieldKeys ∧
    "file_count" ∉ specMetricsKeys ∧ "file_count" ∈ reportMetricsFieldKeys ∧
    "file_count" ∈ metricsFieldKeys := by decide

/-- C2 (amended): a Report carries `run_id`, `project_name` and a `metrics`
object at the top level, and `file_count` is a field of the metrics object
(alongside the four dimension records), not a top-level Report field. -/
theorem file_count_nested_in_metrics :
    "run_id" ∈ reportFieldKeys ∧ "project_name" ∈ reportFieldKeys ∧
    "metrics" ∈ reportFieldKeys ∧ "file_count" ∈ reportMetricsFieldKeys ∧
    "file_count" ∈ metricsFieldKeys ∧ "file_count" ∉ reportFieldKeys := by decide

/-- C3: an input collecting to zero retained files fails with
`CollectionError`, and a successful report is never produced for it. -/
theorem empty_collection_yields_collection_error (runId projectName : String)
    (entries : List RawEntry) :
    (collect entries = [] →
      evaluate runId projectName entries = Except.error EvalError.collectionError) ∧
    (∀ r : EngineReport, evaluate runId projectName entries = Except.ok r →
      collect entries ≠ []) := by
  constructor
  · intro h
    unfold evaluate
    rw [if_pos (by simp [h])]
  · intro r hr hempty
    unfold evaluate at hr
    rw [if_pos (by simp [hempty])] at hr
    exact Except.noConfusion hr

/-- Witness for `empty_collection_yields_collection_error` on the empty upload. -/
theorem empty_collection_yields_collection_error_check :
    collect ([] : List RawEntry) = [] ∧
    evaluate "run-0" "empty" [] = Except.error EvalError.collectionError :=
  ⟨rfl, (empty_collection_yields_collection_error "run-0" "empty" []).1 rfl⟩

/-- C4: `typed_function_ratio` and both `comment_density` values always lie in
the closed interval [0,1], and each equals 0 when its denominator (the python
function count, respectively the pooled line totals) is 0. -/
theorem ratios_and_densities_within_unit_interval (files : List SourceFile) :
    (0 ≤ (robustnessMetrics files).python.typed_function_ratio ∧
      (robustnessMetrics files).python.typed_function_ratio ≤ 1) ∧
    ((robustnessMetrics files).python.function_count = 0 →
      (robustnessMetrics files).python.typed_function_ratio = 0) ∧
    (0 ≤ (readabilityMetrics files).python.comment_density ∧
      (readabilityMetrics files).python.comment_density ≤ 1) ∧
    ((pyLines files).length = 0 →
      (readabilityMetrics files).python.comment_density = 0) ∧
    (0 ≤ (readabilityMetrics files).javascript_typescript.comment_density ∧
      (readabilityMetrics files).javascript_typescript.comment_density ≤ 1) ∧
    ((jsLines files).length = 0 →
      (readabilityMetrics files).javascript_typescript.comment_density = 0) := by
  refine ⟨⟨?_, ?_⟩, fun h => ?_, ⟨?_, ?_⟩, fun h => ?_, ⟨?_, ?_⟩, fun h => ?_⟩
  · rw [robustness_ratio_def]
    exact ratioOrZero_nonneg _ _
  · rw [robustness_ratio_def]
    exact ratioOrZero_le_one (List.countP_le_length _)
  · rw [robustness_count_def] at h
    rw [robustness_ratio_def, h]
    simp [ratioOrZero]
  · rw [readability_py_density_def]
    exact ratioOrZero_nonneg _ _
  · rw [readability_py_density_def]
    exact ratioOrZero_le_one (List.countP_le_length _)
  · rw [readability_py_density_def, h]
    simp [ratioOrZero]
  · rw [readability_js_density_def]
    exact ratioOrZero_nonneg _ _
  · rw [readability_js_density_def]
    exact ratioOrZero_le_one (List.countP_le_length _)
  · rw [readability_js_density_def, h]
    simp [ratioOrZero]

/-- Witness for `ratios_and_densities_within_unit_interval` at the empty file
set, where every denominator is 0. -/
theorem ratios_and_densities_within_unit_interval_check :
    (robustnessMetrics ([] : List SourceFile)).python.function_count = 0 ∧
    (robustnessMetrics ([] : List SourceFile)).python.typed_function_ratio = 0 ∧
    (readabilityMetrics ([] : List SourceFile)).python.comment_density = 0 ∧
    (readabilityMetrics ([] : List SourceFile)).javascript_typescript.comment_density = 0 :=
  ⟨by decide,
   (ratios_and_densities_within_unit_interval []).2.1 (by decide),
   (ratios_and_densities_within_unit_interval []).2.2.2.1 (by decide),
   (ratios_and_densities_within_unit_interval []).2.2.2.2.2 (by decide)⟩

/-- C5: every reported DuplicateGroup spans at least two distinct files, and a
file none of whose normalized fragments recurs in any other file of the set
participates in no duplicate group. -/
theorem duplicate_groups_span_two_distinct_files (files : List SourceFile)
    (hnd : (files.map fun f => f.path).Nodup) :
    (∀ g ∈ duplicateGroups files, 2 ≤ g.length ∧ g.Nodup) ∧
    (∀ f ∈ files,
      (∀ f2 ∈ files, f2.path ≠ f.path → ∀ k ∈ fragmentKeys f, k ∉ fragmentKeys f2) →
      ∀ g ∈ duplicateGroups files, f.path ∉ g) := by
  constructor
  · intro g hg
    obtain ⟨hlen, k, rfl⟩ := mem_duplicateGroups_elim hg
    exact ⟨hlen, nodup_pathsForKey files k⟩
  · intro f hf huniq g hg hmem
    obtain ⟨hlen, k, rfl⟩ := mem_duplicateGroups_elim hg
    obtain ⟨f1, hf1, hp1, hk1⟩ := mem_pathsForKey.mp hmem
    have hf1f : f1 = f := List.inj_on_of_nodup_map hnd hf1 hf hp1
    obtain ⟨p2, hp2, hne⟩ := exists_second_mem (nodup_pathsForKey files k) hlen hmem
    obtain ⟨f2, hf2, hp2eq, hk2⟩ := mem_pathsForKey.mp hp2
    exact huniq f2 hf2 (by rw [hp2eq]; exact hne) k (hf1f ▸ hk1) hk2

/-- Witness for `duplicate_groups_span_two_distinct_files`: the scenario pair
plus a third file with unique content, which lands in no group. -/
theorem duplicate_groups_span_two_distinct_files_check :
    ([dupFileA, dupFileB, uniqFile].map fun f => f.path).Nodup ∧
    (∀ g ∈ duplicateGroups [dupFileA, dupFileB, uniqFile], 2 ≤ g.length ∧ g.Nodup) ∧
    (∀ g ∈ duplicateGroups [dupFileA, dupFileB, uniqFile], uniqFile.path ∉ g) :=
  ⟨by decide,
   (duplicate_groups_span_two_distinct_files [dupFileA, dupFileB, uniqFile] (by decide)).1,
   (duplicate_groups_span_two_distinct_files [dupFileA, dupFileB, uniqFile] (by decide)).2
     uniqFile (by decide) (by decide)⟩

/-- C6: on `a.py` and `b.py`, each holding the same 10-line function body up
to whitespace and otherwise unique content, the detector reports exactly one
duplicate group listing exactly the paths a.py and b.py. -/
theorem two_file_duplicate_scenario :
    (reusabilityMetrics [dupFileA, dupFileB]).duplicate_group_count = 1 ∧
    (reusabilityMetrics [dupFileA, dupFileB]).duplicate_groups = [["a.py", "b.py"]] := by
  decide

/-- C7: the Duplicate Detector is a pure function, so re-running it on the
same file set returns the identical group list, and the emitted list is
sorted by descending member count with ties broken by the lexicographic order
of the first path (the `GroupLE` order). -/
theorem duplicate_detector_deterministic_and_sorted (files : List SourceFile) :
    duplicateGroups files = duplicateGroups files ∧
    List.Sorted GroupLE (duplicateGroups files) :=
  ⟨rfl, List.sorted_insertionSort GroupLE _⟩

/-- C8: the core engine never produces the `summary` field (it stays absent
for the external summarization collaborator to fill in), and the summary
object's shape offers the optional overview, risks, recommendations and
error fields. -/
theorem summary_left_to_external_collaborator :
    (∀ (runId projectName : String) (entries : List RawEntry) (r : EngineReport),
      evaluate runId projectName entries = Except.ok r → r.summary = none) ∧
    "overview" ∈ summaryFieldKeys ∧ "risks" ∈ summaryFieldKeys ∧
    "recommendations" ∈ summaryFieldKeys ∧ "error" ∈ summaryFieldKeys := by
  refine ⟨?_, by decide, by decide, by decide, by decide⟩
  intro runId projectName entries r h
  unfold evaluate at h
  split at h
  · exact Except.noConfusion h
  · cases h
    rfl

/-- Witness for `summary_left_to_external_collaborator` on the demo upload. -/
theorem summary_left_to_external_collaborator_check :
    evaluate "run-2" "demo" demoEntries = Except.ok demoEvalReport2 ∧
    demoEvalReport2.summary = none :=
  ⟨rfl, summary_left_to_external_collaborator.1 "run-2" "demo" demoEntries demoEvalReport2 rfl⟩

/-- C9: the Dashboard's average files per project equals the sum of
`metrics.file_count` over the fetched reports divided by the number of
reports, and is 0 rather than NaN on an empty report list. -/
theorem avg_files_per_project_formula (reports : List Report) :
    (reports = [] → avgFilesPerProject reports = 0) ∧
    (reports ≠ [] →
      avgFilesPerProject reports =
        (((reports.map fun r => r.metrics.file_count).sum : Int) : ℚ) /
          (reports.length : ℚ)) := by
  constructor
  · intro h
    subst h
    rfl
  · intro h
    unfold avgFilesPerProject totalEvaluations
    rw [if_neg (fun hc => h (List.length_eq_zero.mp hc)), totalFiles_eq_sum]

/-- Witness for `avg_files_per_project_formula` on the empty list and on a
one-row list. -/
theorem avg_files_per_project_formula_check :
    avgFilesPerProject [] = 0 ∧
    avgFilesPerProject [demoRow] =
      ((([demoRow].map fun r => r.metrics.file_count).sum : Int) : ℚ) /
        (([demoRow] : List Report).length : ℚ) :=
  ⟨(avg_files_per_project_formula []).1 rfl,
   (avg_files_per_project_formula [demoRow]).2 (by simp)⟩

/-- C10: the supabase client module fails at initialization exactly when
VITE_SUPABASE_URL or VITE_SUPABASE_ANON_KEY is unset or empty, and creates
the client from both values whenever both are set and nonempty. -/
theorem supabase_client_throws_iff_config_missing (url key : Option String) :
    ((∃ msg, initSupabase url key = Except.error msg) ↔
      (url = none ∨ url = some "" ∨ key = none ∨ key = some "")) ∧
    (∀ u k : String, u ≠ "" → k ≠ "" →
      initSupabase (some u) (some k) = Except.ok (createClient u k)) := by
  constructor
  · constructor
    · rintro ⟨msg, hmsg⟩
      by_contra hc
      push_neg at hc
      obtain ⟨h1, h2, h3, h4⟩ := hc
      have hu : envFalsy url = false := by
        rcases url with _ | s
        · exact absurd rfl h1
        · have hs : s ≠ "" := fun hs => h2 (by rw [hs])
          simp [envFalsy, hs]
      have hk : envFalsy key = false := by
        rcases key with _ | s
        · exact absurd rfl h3
        · have hs : s ≠ "" := fun hs => h4 (by rw [hs])
          simp [envFalsy, hs]
      unfold initSupabase at hmsg
      rw [hu, hk] at hmsg
      exact Except.noConfusion hmsg
    · intro hor
      have hft : envFalsy url = true ∨ envFalsy key = true := by
        rcases hor with h | h | h | h
        · exact Or.inl ((envFalsy_true_iff url).mpr (Or.inl h))
        · exact Or.inl ((envFalsy_true_iff url).mpr (Or.inr h))
        · exact Or.inr ((envFalsy_true_iff key).mpr (Or.inl h))
        · exact Or.inr ((envFalsy_true_iff key).mpr (Or.inr h))
      refine ⟨"Missing Supabase config: set VITE_SUPABASE_URL and VITE_SUPABASE_ANON_KEY", ?_⟩
      unfold initSupabase
      rcases hft with h | h <;> simp [h]
  · intro u k hu hk
    unfold initSupabase
    simp [envFalsy, hu, hk, createClient]

/-- Witness for `supabase_client_throws_iff_config_missing` with both
variables set and nonempty. -/
theorem supabase_client_throws_iff_config_missing_check :
    initSupabase (some "https://example.supabase.co") (some "anon-key") =
      Except.ok (createClient "https://example.supabase.co" "anon-key") :=
  (supabase_client_throws_iff_config_missing
      (some "https://example.supabase.co") (some "anon-key")).2
    "https://example.supabase.co" "anon-key" (by decide) (by decide)
